import Mathlib

/-!
Verification of the feedback-analyser engine: a shallow embedding of the
Text Analysis Adapter (prompt construction and reply parsing) and the
Analysis Orchestrator (cache-checked sentiment analysis over an entity
store), with theorems settling the specified properties.

Text is modelled as `List Char` (Python strings index by code point).
-/

namespace FeedbackAnalyser

/-- ASCII whitespace recognised by Python's str.strip and the regex class \s
(ASCII fragment): space, tab, newline, vertical tab, form feed, carriage return. -/
def isPySpace (c : Char) : Bool :=
  [' ', '\t', '\n', '\x0b', '\x0c', '\x0d'].contains c

/-- Word characters of the regex class \w (ASCII fragment): alphanumerics and
underscore. -/
def isWordChar (c : Char) : Bool :=
  c.isAlphanum || c == '_'

/-- Python str.strip: drop leading and trailing whitespace. -/
def pyStrip (s : List Char) : List Char :=
  ((s.dropWhile isPySpace).reverse.dropWhile isPySpace).reverse

/-- Case-insensitive prefix test, modelling literal matching under
re.IGNORECASE. -/
def isPrefixCI : List Char → List Char → Bool
  | [], _ => true
  | _ :: _, [] => false
  | n :: ns, h :: hs => n.toLower == h.toLower && isPrefixCI ns hs

/-- Index of the first case-insensitive occurrence of `needle` in the
haystack, modelling re.search locating a literal under re.IGNORECASE. -/
def findCI (needle : List Char) : List Char → Option Nat
  | [] => if needle.isEmpty then some 0 else none
  | h :: hs =>
    if isPrefixCI needle (h :: hs) then some 0
    else (findCI needle hs).map (· + 1)

/-- Section extraction modelling
re.search(header ++ "(.*?)(?=" ++ stop ++ "|$)", text, DOTALL ⊔ IGNORECASE):
content from just after the first occurrence of `header` up to the first
following occurrence of `stop`, or to the end of the text.  (The lazy group
with the end-anchor alternative can also cut before a final newline; the
caller strips the content, which erases that difference.) -/
def extractSection (header stop : List Char) (t : List Char) : Option (List Char) :=
  match findCI header t with
  | none => none
  | some i =>
      let tail := t.drop (i + header.length)
      match findCI stop tail with
      | none => some tail
      | some j => some (tail.take j)

/-- Section extraction modelling re.search(header ++ "(.*?)$", DOTALL ⊔
IGNORECASE): content from just after the first occurrence of `header` to the
end of the text. -/
def extractToEnd (header : List Char) (t : List Char) : Option (List Char) :=
  (findCI header t).map (fun i => t.drop (i + header.length))

/-- Token extraction modelling re.search(header ++ "\\s*(\\w+)", IGNORECASE):
the maximal word-character run after the whitespace following the first
occurrence of `header` that is in fact followed by such a (non-empty) run. -/
def findSentimentToken (header : List Char) : List Char → Option (List Char)
  | [] => none
  | c :: cs =>
      if isPrefixCI header (c :: cs) then
        let tok := (((c :: cs).drop header.length).dropWhile isPySpace).takeWhile isWordChar
        if tok.isEmpty then findSentimentToken header cs else some tok
      else findSentimentToken header cs

def hdrSentiment : List Char := "OVERALL_SENTIMENT:".data

def hdrHighlights : List Char := "POSITIVE_HIGHLIGHTS:".data

def hdrComplaints : List Char := "COMMON_COMPLAINTS:".data

def hdrSummary : List Char := "EXECUTIVE_SUMMARY:".data

/-- The three admissible sentiment labels, matched case-sensitively. -/
def sentimentLabels : List (List Char) :=
  ["Positive".data, "Neutral".data, "Negative".data]

/-- The structured four-field record produced by the Adapter's parser. -/
structure ParsedAnalysis where
  overall_sentiment : List Char
  positive_highlights : List Char
  common_complaints : List Char
  executive_summary : List Char
deriving DecidableEq, Repr

/-- GeminiAIService._parse_ai_response: parse the raw AI reply into the
four-field record, with defaults for missing or invalid sections and
truncation of the text fields to 1000 characters. -/
def parse_ai_response (response_text : List Char) : ParsedAnalysis :=
  let sentiment0 :=
    match findSentimentToken hdrSentiment response_text with
    | some tok => pyStrip tok
    | none => "Neutral".data
  let sentiment := if sentiment0 ∈ sentimentLabels then sentiment0 else "Neutral".data
  let highlights :=
    match extractSection hdrHighlights hdrComplaints response_text with
    | some c => pyStrip c
    | none => "No specific highlights mentioned".data
  let complaints :=
    match extractSection hdrComplaints hdrSummary response_text with
    | some c => pyStrip c
    | none => "No specific complaints mentioned".data
  let summary :=
    match extractToEnd hdrSummary response_text with
    | some c => pyStrip c
    | none => "Analysis completed successfully".data
  { overall_sentiment := sentiment
    positive_highlights := highlights.take 1000
    common_complaints := complaints.take 1000
    executive_summary := summary.take 1000 }

/-- The four fixed section headers known to the parser. -/
def knownHeaders : List (List Char) :=
  [hdrSentiment, hdrHighlights, hdrComplaints, hdrSummary]

/-- Modelled from the spec: a section's content runs from just after its
case-insensitively matched header to just before the next known header
(whichever of the four occurs first) or the end of the text.  Written to be
compared with `extractSection`, which is translated from the source. -/
def specExtractSection (header : List Char) (t : List Char) : Option (List Char) :=
  match findCI header t with
  | none => none
  | some i =>
      let tail := t.drop (i + header.length)
      let cut := (knownHeaders.filterMap (fun h => findCI h tail)).foldr min tail.length
      some (tail.take cut)

/-- One record of the Adapter's input: a rating and a comment (the
Orchestrator projects an absent comment to the empty string). -/
structure FeedbackItem where
  rating : Nat
  comment : List Char
deriving DecidableEq, Repr

/-- Decimal digits of a natural number. -/
def natToChars (n : Nat) : List Char := (Nat.repr n).data

/-- Round the rational num/den (den ≠ 0) to the nearest integer, ties to
even; models the rounding of the 2-decimal fixed formatting applied to the
mean rating. -/
def roundHalfEven (num den : Nat) : Nat :=
  let q := num / den
  let r := num % den
  if 2 * r < den then q
  else if 2 * r > den then q + 1
  else if q % 2 = 0 then q else q + 1

/-- Two-decimal-digit rendering of n < 100. -/
def two_digit (n : Nat) : List Char :=
  if n < 10 then '0' :: natToChars n else natToChars n

/-- The mean rating sum/n rendered with two decimal places, modelling the
Python format specifier .2f applied to the mean. -/
def formatAvg (sum n : Nat) : List Char :=
  let scaled := roundHalfEven (100 * sum) n
  natToChars (scaled / 100) ++ '.' :: two_digit (scaled % 100)

/-- One line of the enumerated comment list: "i. comment". -/
def comment_lines (comments : List (List Char)) : List (List Char) :=
  ((comments.take 50).enumFrom 1).map (fun p => natToChars p.1 ++ ". ".data ++ p.2)

/-- GeminiAIService._format_comments: the enumerated, 1-indexed list of the
first 50 comments, newline-joined, or a literal placeholder when there are
none. -/
def format_comments (comments : List (List Char)) : List Char :=
  if comments.isEmpty then "(No written comments provided)".data
  else List.intercalate ['\n'] (comment_lines comments)

/-- The non-empty comments of the Adapter's input, in input order (the
truthiness test on the comment value excludes empty strings). -/
def commentsOf (feedback_data : List FeedbackItem) : List (List Char) :=
  (feedback_data.filter (fun f => !f.comment.isEmpty)).map (·.comment)

def promptPart1 : List Char :=
  ("You are an expert event feedback analyzer. Analyze the following attendee feedback and provide insights.\n\nFEEDBACK DATA:\n- Total Responses: ").data

def promptPart2 : List Char := "\n- Average Rating: ".data

def promptPart3 : List Char := "/5.0\n\nATTENDEE COMMENTS:\n".data

def promptPart4 : List Char :=
  ("\n\nPlease provide your analysis in the following exact format:\n\nOVERALL_SENTIMENT: [Choose ONLY one: Positive, Neutral, or Negative]\n\nPOSITIVE_HIGHLIGHTS:\n[List the main positive aspects mentioned by attendees. If none, write \"None mentioned\"]\n\nCOMMON_COMPLAINTS:\n[List recurring issues or complaints. If none, write \"None mentioned\"]\n\nEXECUTIVE_SUMMARY:\n[Provide a concise 2-3 sentence summary of the overall feedback]\n\nImportant:\n- Be specific and data-driven\n- Extract actual themes from the comments\n- Keep each section concise\n- Use the exact format headers shown above\n").data

/-- GeminiAIService._build_analysis_prompt: the deterministic prompt built
from the response count, the mean rating and the enumerated comments. -/
def build_analysis_prompt (feedback_data : List FeedbackItem) : List Char :=
  promptPart1
    ++ natToChars feedback_data.length
    ++ promptPart2
    ++ formatAvg ((feedback_data.map (·.rating)).sum) feedback_data.length
    ++ promptPart3
    ++ format_comments (commentsOf feedback_data)
    ++ promptPart4

/-- Failures of the Adapter: the caller-contract violation on empty input,
and a wrapped failure of the external call. -/
inductive AIError where
  | valueError (msg : List Char)
  | apiError (msg : List Char)
deriving DecidableEq, Repr

/-- The exception message carried by an Adapter failure; an external-call
failure is wrapped as a Gemini API error. -/
def AIError.message : AIError → List Char
  | AIError.valueError m => m
  | AIError.apiError m => "Gemini API error: ".data ++ m

/-- GeminiAIService.analyze_feedback: reject empty input, build the prompt,
invoke the external capability (the oracle), parse its reply.  The second
component counts invocations of the external capability. -/
def analyze_feedback (oracle : List Char → Except (List Char) (List Char))
    (feedback_data : List FeedbackItem) :
    Except AIError ParsedAnalysis × Nat :=
  if feedback_data.isEmpty then
    (Except.error (AIError.valueError ("No feedback data provided".data)), 0)
  else
    match oracle (build_analysis_prompt feedback_data) with
    | Except.ok text => (Except.ok (parse_ai_response text), 1)
    | Except.error e => (Except.error (AIError.apiError e), 1)

/-- Entity Store record of models.FeedbackForm (identifiers and timestamps
are drawn from counters of the store). -/
structure FeedbackForm where
  id : Nat
  event_name : List Char
  event_date : Option Nat
  description : Option (List Char)
  created_at : Nat
  updated_at : Nat
deriving DecidableEq, Repr

/-- Entity Store record of models.FeedbackResponse. -/
structure FeedbackResponse where
  id : Nat
  form_id : Nat
  attendee_name : Option (List Char)
  rating : Nat
  comment : Option (List Char)
  submitted_at : Nat
deriving DecidableEq, Repr

/-- Entity Store record of models.SentimentAnalysis. -/
structure SentimentAnalysis where
  id : Nat
  form_id : Nat
  overall_sentiment : List Char
  positive_highlights : List Char
  common_complaints : List Char
  executive_summary : List Char
  analyzed_at : Nat
deriving DecidableEq, Repr

/-- The Entity Store: the three tables in insertion order, a fresh-identity
counter and a logical clock supplying timestamps. -/
structure Store where
  nextId : Nat
  clock : Nat
  forms : List FeedbackForm
  responses : List FeedbackResponse
  analyses : List SentimentAnalysis
deriving DecidableEq, Repr

def Store.empty : Store := ⟨0, 0, [], [], []⟩

/-- The Orchestrator's error taxonomy (utils.exceptions). -/
inductive ServiceError where
  | formNotFound (fid : Nat)
  | analysisNotFound (fid : Nat)
  | noResponses (fid : Nat)
  | aiService (msg : List Char)
deriving DecidableEq, Repr

deriving instance DecidableEq for Except

/-- Schema FeedbackFormCreate. -/
structure FeedbackFormCreate where
  event_name : List Char
  event_date : Option Nat
  description : Option (List Char)
deriving DecidableEq, Repr

/-- Schema FeedbackFormUpdate: an outer none means the field was not
supplied (exclude_unset semantics). -/
structure FeedbackFormUpdate where
  event_name : Option (List Char)
  event_date : Option (Option Nat)
  description : Option (Option (List Char))
deriving DecidableEq, Repr

/-- Schema FeedbackResponseCreate. -/
structure FeedbackResponseCreate where
  attendee_name : Option (List Char)
  rating : Nat
  comment : Option (List Char)
deriving DecidableEq, Repr

/-- FeedbackService.get_form: first form with the given id, or
FormNotFound. -/
def get_form (s : Store) (fid : Nat) : Except ServiceError FeedbackForm :=
  match s.forms.find? (fun f => f.id == fid) with
  | some f => Except.ok f
  | none => Except.error (ServiceError.formNotFound fid)

/-- FeedbackService.create_form. -/
def create_form (s : Store) (d : FeedbackFormCreate) : FeedbackForm × Store :=
  let f : FeedbackForm :=
    { id := s.nextId, event_name := d.event_name, event_date := d.event_date,
      description := d.description, created_at := s.clock, updated_at := s.clock }
  (f, { s with nextId := s.nextId + 1, clock := s.clock + 1, forms := s.forms ++ [f] })

/-- FeedbackService.update_form: apply only the supplied fields and refresh
the update timestamp. -/
def update_form (s : Store) (fid : Nat) (d : FeedbackFormUpdate) :
    Except ServiceError (FeedbackForm × Store) :=
  match get_form s fid with
  | Except.error e => Except.error e
  | Except.ok f =>
      let f' : FeedbackForm :=
        { f with event_name := d.event_name.getD f.event_name,
                 event_date := d.event_date.getD f.event_date,
                 description := d.description.getD f.description,
                 updated_at := s.clock }
      Except.ok (f', { s with clock := s.clock + 1,
                              forms := s.forms.map (fun g => if g.id == fid then f' else g) })

/-- FeedbackService.delete_form: remove the form and, by cascade, its
responses and analysis. -/
def delete_form (s : Store) (fid : Nat) : Except ServiceError (Bool × Store) :=
  match get_form s fid with
  | Except.error e => Except.error e
  | Except.ok _ =>
      Except.ok (true,
        { s with forms := s.forms.filter (fun f => f.id != fid),
                 responses := s.responses.filter (fun r => r.form_id != fid),
                 analyses := s.analyses.filter (fun a => a.form_id != fid) })

/-- FeedbackService.create_response: verify the form exists, then append the
response stamped with the current clock. -/
def create_response (s : Store) (fid : Nat) (d : FeedbackResponseCreate) :
    Except ServiceError (FeedbackResponse × Store) :=
  match get_form s fid with
  | Except.error e => Except.error e
  | Except.ok _ =>
      let r : FeedbackResponse :=
        { id := s.nextId, form_id := fid, attendee_name := d.attendee_name,
          rating := d.rating, comment := d.comment, submitted_at := s.clock }
      Except.ok (r, { s with nextId := s.nextId + 1, clock := s.clock + 1,
                             responses := s.responses ++ [r] })

/-- The responses of a form, in store order. -/
def responsesOf (s : Store) (fid : Nat) : List FeedbackResponse :=
  s.responses.filter (fun r => r.form_id == fid)

/-- The Orchestrator's projection of a response to the Adapter's input
shape: the rating, and the comment with an absent comment mapped to the
empty string. -/
def project (r : FeedbackResponse) : FeedbackItem :=
  { rating := r.rating, comment := r.comment.getD [] }

/-- The sequence the Orchestrator passes to the Adapter on a cache miss. -/
def analysisInput (s : Store) (fid : Nat) : List FeedbackItem :=
  (responsesOf s fid).map project

/-- Persistence step of FeedbackService.analyze_form: wrap an Adapter
failure as an AI-service error, or store the four returned fields as a new
analysis row; the count of external calls is passed through. -/
def storeAnalysis (s : Store) (fid : Nat) :
    Except AIError ParsedAnalysis × Nat →
    Except ServiceError (SentimentAnalysis × Store) × Nat
  | (Except.error e, n) =>
      (Except.error (ServiceError.aiService
        ("Failed to analyze feedback: ".data ++ AIError.message e)), n)
  | (Except.ok r, n) =>
      let a : SentimentAnalysis :=
        { id := s.nextId, form_id := fid,
          overall_sentiment := r.overall_sentiment,
          positive_highlights := r.positive_highlights,
          common_complaints := r.common_complaints,
          executive_summary := r.executive_summary,
          analyzed_at := s.clock }
      (Except.ok (a, { s with nextId := s.nextId + 1, clock := s.clock + 1,
                              analyses := s.analyses ++ [a] }), n)

/-- FeedbackService.analyze_form: verify the form exists, return a cached
analysis unchanged, fail NoResponses on an empty response list, otherwise
run the Adapter on the projected responses and persist the result.  The
second component counts invocations of the external capability. -/
def analyze_form (oracle : List Char → Except (List Char) (List Char))
    (s : Store) (fid : Nat) :
    Except ServiceError (SentimentAnalysis × Store) × Nat :=
  match get_form s fid with
  | Except.error e => (Except.error e, 0)
  | Except.ok _ =>
      match s.analyses.find? (fun a => a.form_id == fid) with
      | some a => (Except.ok (a, s), 0)
      | none =>
          if (responsesOf s fid).isEmpty then
            (Except.error (ServiceError.noResponses fid), 0)
          else
            storeAnalysis s fid (analyze_feedback oracle (analysisInput s fid))

/-- FeedbackService.get_analysis. -/
def get_analysis (s : Store) (fid : Nat) : Except ServiceError SentimentAnalysis :=
  match get_form s fid with
  | Except.error e => Except.error e
  | Except.ok _ =>
      match s.analyses.find? (fun a => a.form_id == fid) with
      | some a => Except.ok a
      | none => Except.error (ServiceError.analysisNotFound fid)

/-- The exposed operations, as steps of a state machine over the store; a
request-analysis step carries the outcome the external capability would
return for it. -/
inductive Op where
  | createForm (d : FeedbackFormCreate)
  | updateForm (fid : Nat) (d : FeedbackFormUpdate)
  | deleteForm (fid : Nat)
  | createResponse (fid : Nat) (d : FeedbackResponseCreate)
  | analyzeForm (fid : Nat) (reply : Except (List Char) (List Char))
  | getAnalysis (fid : Nat)
deriving Repr

/-- Apply one operation to the store; a failed operation leaves the store
unchanged. -/
def Op.apply (s : Store) : Op → Store
  | Op.createForm d => (create_form s d).2
  | Op.updateForm fid d =>
      match update_form s fid d with
      | Except.ok (_, s') => s'
      | Except.error _ => s
  | Op.deleteForm fid =>
      match delete_form s fid with
      | Except.ok (_, s') => s'
      | Except.error _ => s
  | Op.createResponse fid d =>
      match create_response s fid d with
      | Except.ok (_, s') => s'
      | Except.error _ => s
  | Op.analyzeForm fid reply =>
      match (analyze_form (fun _ => reply) s fid).1 with
      | Except.ok (_, s') => s'
      | Except.error _ => s
  | Op.getAnalysis _ => s

/-- Run a sequence of operations from the empty store. -/
def runOps (ops : List Op) : Store := ops.foldl Op.apply Store.empty

/-- The uniqueness invariant: no two stored analyses belong to the same
form. -/
def analysesUnique (s : Store) : Prop :=
  s.analyses.Pairwise (fun a b => a.form_id ≠ b.form_id)

/-- Concrete store with a form whose analysis is already cached. -/
def hitForm : FeedbackForm :=
  { id := 0, event_name := "Launch".data, event_date := none, description := none,
    created_at := 0, updated_at := 0 }

def hitAnalysis : SentimentAnalysis :=
  { id := 1, form_id := 0, overall_sentiment := "Positive".data,
    positive_highlights := "Great content".data,
    common_complaints := "None mentioned".data,
    executive_summary := "Well received".data, analyzed_at := 1 }

def hitStore : Store :=
  { nextId := 2, clock := 2, forms := [hitForm], responses := [], analyses := [hitAnalysis] }

/-- Concrete store with a form that has no responses and no analysis. -/
def nrForm : FeedbackForm :=
  { id := 0, event_name := "Empty".data, event_date := none, description := none,
    created_at := 0, updated_at := 0 }

def nrStore : Store :=
  { nextId := 1, clock := 1, forms := [nrForm], responses := [], analyses := [] }

/-- Concrete Adapter input with a rated-but-uncommented record. -/
def fdC7 : List FeedbackItem :=
  [{ rating := 5, comment := "Great event".data },
   { rating := 2, comment := [] },
   { rating := 4, comment := "Too long".data }]

/-- Concrete Adapter input with one non-empty comment. -/
def fdC10 : List FeedbackItem :=
  [{ rating := 4, comment := "Great".data }, { rating := 3, comment := [] }]

/-- Form shared by the two permuted stores below. -/
def permForm : FeedbackForm :=
  { id := 0, event_name := "Launch".data, event_date := none, description := none,
    created_at := 0, updated_at := 0 }

def permR1 : FeedbackResponse :=
  { id := 1, form_id := 0, attendee_name := none, rating := 5,
    comment := some ("Great".data), submitted_at := 1 }

def permR2 : FeedbackResponse :=
  { id := 2, form_id := 0, attendee_name := none, rating := 3,
    comment := some ("Slow".data), submitted_at := 2 }

/-- Store whose response table returns the two rows oldest first. -/
def permStore1 : Store :=
  { nextId := 3, clock := 3, forms := [permForm],
    responses := [permR1, permR2], analyses := [] }

/-- The same stored rows returned newest first — also a legal return order,
since the source's fetch of a form's responses imposes no ordering
constraint on the entity store. -/
def permStore2 : Store :=
  { nextId := 3, clock := 3, forms := [permForm],
    responses := [permR2, permR1], analyses := [] }

/-- External capability that reports the prompt it was invoked with. -/
def echoOracle : List Char → Except (List Char) (List Char) :=
  fun p => Except.error p

lemma dropWhile_eq_self_of {p : Char → Bool} {s : List Char}
    (h : ∀ c ∈ s, p c = false) : s.dropWhile p = s := by
  cases s with
  | nil => rfl
  | cons c cs =>
      rw [List.dropWhile_cons]
      simp [h c (List.mem_cons_self c cs)]

lemma pyStrip_eq_self {s : List Char} (h : ∀ c ∈ s, isPySpace c = false) :
    pyStrip s = s := by
  unfold pyStrip
  rw [dropWhile_eq_self_of h, dropWhile_eq_self_of, List.reverse_reverse]
  intro c hc
  exact h c (List.mem_reverse.mp hc)

lemma word_char_not_space {c : Char} (h : isWordChar c = true) :
    isPySpace c = false := by
  by_contra hc
  rw [Bool.not_eq_false] at hc
  unfold isPySpace at hc
  simp only [List.contains_cons, List.contains_nil, Bool.or_eq_true, beq_iff_eq,
    Bool.or_false] at hc
  rcases hc with h1 | h1 | h1 | h1 | h1 | h1 <;> subst h1 <;> exact absurd h (by decide)

lemma findSentimentToken_word {header : List Char} :
    ∀ {t tok : List Char}, findSentimentToken header t = some tok →
      ∀ c ∈ tok, isWordChar c = true := by
  intro t
  induction t with
  | nil => intro tok h; simp [findSentimentToken] at h
  | cons x xs ih =>
      intro tok h
      rw [findSentimentToken] at h
      split at h
      · dsimp only at h
        split at h
        · exact ih h
        · cases h
          intro c hc
          exact List.mem_takeWhile_imp hc
      · exact ih h

lemma pyStrip_token {t tok : List Char}
    (h : findSentimentToken hdrSentiment t = some tok) : pyStrip tok = tok :=
  pyStrip_eq_self (fun c hc => word_char_not_space (findSentimentToken_word h c hc))

lemma parse_overall_def (t : List Char) :
    (parse_ai_response t).overall_sentiment =
      (let s0 := match findSentimentToken hdrSentiment t with
                 | some tok => pyStrip tok
                 | none => "Neutral".data
       if s0 ∈ sentimentLabels then s0 else "Neutral".data) := rfl

lemma parse_highlights_def (t : List Char) :
    (parse_ai_response t).positive_highlights =
      (match extractSection hdrHighlights hdrComplaints t with
       | some c => pyStrip c
       | none => "No specific highlights mentioned".data).take 1000 := rfl

lemma parse_complaints_def (t : List Char) :
    (parse_ai_response t).common_complaints =
      (match extractSection hdrComplaints hdrSummary t with
       | some c => pyStrip c
       | none => "No specific complaints mentioned".data).take 1000 := rfl

lemma parse_summary_def (t : List Char) :
    (parse_ai_response t).executive_summary =
      (match extractToEnd hdrSummary t with
       | some c => pyStrip c
       | none => "Analysis completed successfully".data).take 1000 := rfl

/-- C3: the parsed overall sentiment is determined by the first word token
found after the OVERALL_SENTIMENT: header — the token itself when it is
exactly one of the three case-sensitive labels, and "Neutral" when the token
is missing or unrecognized; the result is always one of the three labels
(parsing is total and never fails). -/
theorem parse_sentiment_first_token_or_default (t : List Char) :
    ((parse_ai_response t).overall_sentiment =
       match findSentimentToken hdrSentiment t with
       | some tok => if tok ∈ sentimentLabels then tok else "Neutral".data
       | none => "Neutral".data) ∧
    (parse_ai_response t).overall_sentiment ∈ sentimentLabels := by
  have hcase : (parse_ai_response t).overall_sentiment =
      match findSentimentToken hdrSentiment t with
      | some tok => if pyStrip tok ∈ sentimentLabels then pyStrip tok else "Neutral".data
      | none => "Neutral".data := by
    rw [parse_overall_def]
    cases findSentimentToken hdrSentiment t
    · split <;> rfl
    · rfl
  cases hft : findSentimentToken hdrSentiment t with
  | some tok =>
      rw [hft] at hcase
      dsimp only at hcase ⊢
      rw [pyStrip_token hft] at hcase
      refine ⟨hcase, ?_⟩
      rw [hcase]
      by_cases htok : tok ∈ sentimentLabels
      · rw [if_pos htok]; exact htok
      · rw [if_neg htok]; decide
  | none =>
      rw [hft] at hcase
      exact ⟨hcase, by rw [hcase]; decide⟩

/-- C4: parsing always yields a complete four-field record: each of the
highlights, complaints and summary fields is the stripped extracted section
truncated to at most 1000 characters when the section is present, and the
fixed placeholder when it is absent; every text field has length at most
1000. -/
theorem parse_complete_four_fields (t : List Char) :
    ((parse_ai_response t).positive_highlights =
       match extractSection hdrHighlights hdrComplaints t with
       | some c => (pyStrip c).take 1000
       | none => "No specific highlights mentioned".data) ∧
    ((parse_ai_response t).common_complaints =
       match extractSection hdrComplaints hdrSummary t with
       | some c => (pyStrip c).take 1000
       | none => "No specific complaints mentioned".data) ∧
    ((parse_ai_response t).executive_summary =
       match extractToEnd hdrSummary t with
       | some c => (pyStrip c).take 1000
       | none => "Analysis completed successfully".data) ∧
    (parse_ai_response t).positive_highlights.length ≤ 1000 ∧
    (parse_ai_response t).common_complaints.length ≤ 1000 ∧
    (parse_ai_response t).executive_summary.length ≤ 1000 := by
  refine ⟨?_, ?_, ?_, ?_, ?_, ?_⟩
  · rw [parse_highlights_def]
    cases hx : extractSection hdrHighlights hdrComplaints t with
    | some c => rfl
    | none => decide
  · rw [parse_complaints_def]
    cases hx : extractSection hdrComplaints hdrSummary t with
    | some c => rfl
    | none => decide
  · rw [parse_summary_def]
    cases hx : extractToEnd hdrSummary t with
    | some c => rfl
    | none => decide
  · rw [parse_highlights_def]; exact List.length_take_le 1000 _
  · rw [parse_complaints_def]; exact List.length_take_le 1000 _
  · rw [parse_summary_def]; exact List.length_take_le 1000 _

/-- C2 (counterexample): on a reply where COMMON_COMPLAINTS: is absent but
EXECUTIVE_SUMMARY: is present, the parsed POSITIVE_HIGHLIGHTS content does
NOT stop before the EXECUTIVE_SUMMARY: header — it runs to the end of the
text and differs from the spec-modelled extraction that stops at the next
known header. -/
theorem parse_highlights_crosses_summary_header :
    (parse_ai_response ("POSITIVE_HIGHLIGHTS: good EXECUTIVE_SUMMARY: fine".data)).positive_highlights
      = "good EXECUTIVE_SUMMARY: fine".data ∧
    (specExtractSection hdrHighlights
        ("POSITIVE_HIGHLIGHTS: good EXECUTIVE_SUMMARY: fine".data)).map pyStrip
      = some ("good".data) ∧
    (parse_ai_response ("POSITIVE_HIGHLIGHTS: good EXECUTIVE_SUMMARY: fine".data)).positive_highlights
      ≠ "good".data := by
  refine ⟨by decide, by decide, by decide⟩

/-- C2 (amended): each section's content runs from just after its
case-insensitively matched header to just before its designated following
header — COMMON_COMPLAINTS: for the highlights section, EXECUTIVE_SUMMARY:
for the complaints section, end-of-text for the summary section — or the end
of the text when that designated header is absent (so an absent
COMMON_COMPLAINTS: makes the highlights content run past an
EXECUTIVE_SUMMARY: header). -/
theorem parse_sections_stop_at_designated_header (t : List Char) :
    (∀ i, findCI hdrHighlights t = some i →
       (parse_ai_response t).positive_highlights =
         (pyStrip (match findCI hdrComplaints (t.drop (i + hdrHighlights.length)) with
           | some j => (t.drop (i + hdrHighlights.length)).take j
           | none => t.drop (i + hdrHighlights.length))).take 1000) ∧
    (∀ i, findCI hdrComplaints t = some i →
       (parse_ai_response t).common_complaints =
         (pyStrip (match findCI hdrSummary (t.drop (i + hdrComplaints.length)) with
           | some j => (t.drop (i + hdrComplaints.length)).take j
           | none => t.drop (i + hdrComplaints.length))).take 1000) ∧
    (∀ i, findCI hdrSummary t = some i →
       (parse_ai_response t).executive_summary =
         (pyStrip (t.drop (i + hdrSummary.length))).take 1000) := by
  refine ⟨?_, ?_, ?_⟩
  · intro i hi
    rw [parse_highlights_def]
    unfold extractSection
    rw [hi]
    cases h : findCI hdrComplaints (t.drop (i + hdrHighlights.length)) <;> simp [h]
  · intro i hi
    rw [parse_complaints_def]
    unfold extractSection
    rw [hi]
    cases h : findCI hdrSummary (t.drop (i + hdrComplaints.length)) <;> simp [h]
  · intro i hi
    rw [parse_summary_def]
    unfold extractToEnd
    rw [hi]
    rfl

/-- Witness for the amended C2 at a concrete reply. -/
theorem parse_sections_stop_witness :
    findCI hdrHighlights ("POSITIVE_HIGHLIGHTS: good EXECUTIVE_SUMMARY: fine".data) = some 0 ∧
    (parse_ai_response ("POSITIVE_HIGHLIGHTS: good EXECUTIVE_SUMMARY: fine".data)).positive_highlights =
      (pyStrip (match findCI hdrComplaints
          ("POSITIVE_HIGHLIGHTS: good EXECUTIVE_SUMMARY: fine".data.drop
            (0 + hdrHighlights.length)) with
        | some j => ("POSITIVE_HIGHLIGHTS: good EXECUTIVE_SUMMARY: fine".data.drop
            (0 + hdrHighlights.length)).take j
        | none => "POSITIVE_HIGHLIGHTS: good EXECUTIVE_SUMMARY: fine".data.drop
            (0 + hdrHighlights.length))).take 1000 :=
  ⟨by decide,
   (parse_sections_stop_at_designated_header
     ("POSITIVE_HIGHLIGHTS: good EXECUTIVE_SUMMARY: fine".data)).1 0 (by decide)⟩

/-- C8: the Adapter rejects an empty input sequence with the ValueError
"No feedback data provided", making zero calls to the external capability,
whatever that capability would reply. -/
theorem analyze_feedback_empty_rejected
    (oracle : List Char → Except (List Char) (List Char)) :
    analyze_feedback oracle [] =
      (Except.error (AIError.valueError ("No feedback data provided".data)), 0) := rfl

/-- C1: when a form already has a stored analysis, request-analysis returns
that analysis unchanged with the store untouched and zero invocations of the
external capability, and any number of repeated request-analysis steps
leaves the store fixed. -/
theorem analyze_form_cache_hit (s : Store) (fid : Nat) (f : FeedbackForm)
    (a : SentimentAnalysis)
    (h1 : get_form s fid = Except.ok f)
    (h2 : s.analyses.find? (fun x => x.form_id == fid) = some a) :
    (∀ oracle, analyze_form oracle s fid = (Except.ok (a, s), 0)) ∧
    ∀ reply n, (List.replicate n (Op.analyzeForm fid reply)).foldl Op.apply s = s := by
  have hone : ∀ oracle, analyze_form oracle s fid = (Except.ok (a, s), 0) := by
    intro oracle
    unfold analyze_form
    rw [h1, h2]
  refine ⟨hone, ?_⟩
  intro reply n
  induction n with
  | zero => rfl
  | succ n ih =>
      rw [List.replicate_succ, List.foldl_cons]
      have happ : Op.apply s (Op.analyzeForm fid reply) = s := by
        simp [Op.apply, hone (fun _ => reply)]
      rw [happ, ih]

/-- Witness for C1 on a concrete cached store. -/
theorem analyze_form_cache_hit_witness :
    get_form hitStore 0 = Except.ok hitForm ∧
    hitStore.analyses.find? (fun x => x.form_id == 0) = some hitAnalysis ∧
    ∀ oracle, analyze_form oracle hitStore 0 = (Except.ok (hitAnalysis, hitStore), 0) :=
  ⟨rfl, rfl, (analyze_form_cache_hit hitStore 0 hitForm hitAnalysis rfl rfl).1⟩

/-- C6: on an existing form with no cached analysis and zero responses,
request-analysis fails NoResponses (not FormNotFound), with zero external
calls, and any number of repeated request-analysis steps leaves the store
fixed (so every such call fails the same way). -/
theorem analyze_form_no_responses (s : Store) (fid : Nat) (f : FeedbackForm)
    (h1 : get_form s fid = Except.ok f)
    (h2 : s.analyses.find? (fun x => x.form_id == fid) = none)
    (h3 : responsesOf s fid = []) :
    (∀ oracle, analyze_form oracle s fid =
      (Except.error (ServiceError.noResponses fid), 0)) ∧
    ServiceError.noResponses fid ≠ ServiceError.formNotFound fid ∧
    ∀ reply n, (List.replicate n (Op.analyzeForm fid reply)).foldl Op.apply s = s := by
  have hone : ∀ oracle, analyze_form oracle s fid =
      (Except.error (ServiceError.noResponses fid), 0) := by
    intro oracle
    unfold analyze_form
    rw [h1, h2, h3]
    rfl
  refine ⟨hone, by simp, ?_⟩
  intro reply n
  induction n with
  | zero => rfl
  | succ n ih =>
      rw [List.replicate_succ, List.foldl_cons]
      have happ : Op.apply s (Op.analyzeForm fid reply) = s := by
        simp [Op.apply, hone (fun _ => reply)]
      rw [happ, ih]

/-- Witness for C6 on a concrete response-less store. -/
theorem analyze_form_no_responses_witness :
    get_form nrStore 0 = Except.ok nrForm ∧
    nrStore.analyses.find? (fun x => x.form_id == 0) = none ∧
    responsesOf nrStore 0 = [] ∧
    ∀ oracle, analyze_form oracle nrStore 0 =
      (Except.error (ServiceError.noResponses 0), 0) :=
  ⟨rfl, rfl, rfl, (analyze_form_no_responses nrStore 0 nrForm rfl rfl rfl).1⟩

lemma two_digit_length : ∀ m < 100, (two_digit m).length = 2 := by decide

lemma comment_lines_length (cs : List (List Char)) :
    (comment_lines cs).length = min 50 cs.length := by
  simp [comment_lines]

lemma comment_lines_getElem (cs : List (List Char)) (i : Nat) :
    (comment_lines cs)[i]? =
      ((cs.take 50)[i]?).map (fun c => natToChars (1 + i) ++ ". ".data ++ c) := by
  simp [comment_lines, List.getElem?_map, List.getElem?_enumFrom, Option.map_map]
  rfl

lemma commentsOf_nonempty (fd : List FeedbackItem) :
    ∀ c ∈ commentsOf fd, c ≠ [] := by
  intro c hc
  simp only [commentsOf, List.mem_map, List.mem_filter] at hc
  obtain ⟨f, ⟨_, hne⟩, hfc⟩ := hc
  intro hnil
  rw [hfc, hnil] at hne
  simp at hne

/-- C7: for a non-empty input, the prompt is exactly the fixed text around
the response count, the mean rating rendered with two decimal digits after
the point, and the newline-joined enumerated comment list; the list is the
placeholder when there is no non-empty comment, and otherwise its i-th line
is "i+1. comment" over at most the first 50 non-empty comments, taken in
input order (a sublist of the input's comments). -/
theorem build_prompt_structure (fd : List FeedbackItem) (hne : fd ≠ []) :
    (build_analysis_prompt fd =
      promptPart1 ++ natToChars fd.length ++ promptPart2
        ++ formatAvg ((fd.map (·.rating)).sum) fd.length ++ promptPart3
        ++ format_comments (commentsOf fd) ++ promptPart4) ∧
    formatAvg ((fd.map (·.rating)).sum) fd.length =
      natToChars (roundHalfEven (100 * (fd.map (·.rating)).sum) fd.length / 100)
        ++ '.' :: two_digit (roundHalfEven (100 * (fd.map (·.rating)).sum) fd.length % 100) ∧
    (two_digit (roundHalfEven (100 * (fd.map (·.rating)).sum) fd.length % 100)).length = 2 ∧
    (commentsOf fd).Sublist (fd.map (·.comment)) ∧
    (∀ c ∈ commentsOf fd, c ≠ []) ∧
    (commentsOf fd = [] →
      format_comments (commentsOf fd) = "(No written comments provided)".data) ∧
    (commentsOf fd ≠ [] →
      format_comments (commentsOf fd) =
        List.intercalate ['\n'] (comment_lines (commentsOf fd))) ∧
    (comment_lines (commentsOf fd)).length = min 50 (commentsOf fd).length ∧
    ∀ i, (comment_lines (commentsOf fd))[i]? =
      (((commentsOf fd).take 50)[i]?).map (fun c => natToChars (1 + i) ++ ". ".data ++ c) := by
  refine ⟨rfl, rfl, ?_, ?_, commentsOf_nonempty fd, ?_, ?_,
    comment_lines_length _, comment_lines_getElem _⟩
  · exact two_digit_length _ (Nat.mod_lt _ (by norm_num))
  · exact (List.filter_sublist fd).map (·.comment)
  · intro hc
    simp [format_comments, hc]
  · intro hc
    simp [format_comments, hc]

/-- Witness for C7 on a concrete input. -/
theorem build_prompt_structure_witness :
    fdC7 ≠ [] ∧
    build_analysis_prompt fdC7 =
      promptPart1 ++ natToChars fdC7.length ++ promptPart2
        ++ formatAvg ((fdC7.map (·.rating)).sum) fdC7.length ++ promptPart3
        ++ format_comments (commentsOf fdC7) ++ promptPart4 :=
  ⟨by decide, (build_prompt_structure fdC7 (by decide)).1⟩

/-- C10: a response without a comment behaves exactly like one with an empty
comment — the Orchestrator's projection sends both to the empty string, the
Adapter's comment aggregation contains only non-empty comments, and the two
variants produce identical prompts (so such a response reaches the prompt
only through the count and the mean rating, never the comment list). -/
theorem absent_comment_prompt_equiv :
    (∀ r : FeedbackResponse,
      project { r with comment := none } = project { r with comment := some [] }) ∧
    (∀ r : FeedbackResponse, r.comment = none → (project r).comment = []) ∧
    (∀ fd : List FeedbackItem, ∀ c ∈ commentsOf fd, c ≠ []) ∧
    ∀ (pre post : List FeedbackResponse) (r : FeedbackResponse),
      build_analysis_prompt ((pre ++ { r with comment := none } :: post).map project) =
      build_analysis_prompt ((pre ++ { r with comment := some [] } :: post).map project) := by
  refine ⟨fun r => rfl, ?_, fun fd => commentsOf_nonempty fd, ?_⟩
  · intro r hr
    simp [project, hr]
  · intro pre post r
    have hp : project { r with comment := none } = project { r with comment := some [] } := rfl
    simp only [List.map_append, List.map_cons, hp]

/-- Witness for C10: the empty-comment record of a concrete input is absent
from the aggregated comment list. -/
theorem absent_comment_prompt_equiv_witness :
    "Great".data ∈ commentsOf fdC10 ∧ "Great".data ≠ [] :=
  ⟨by decide, absent_comment_prompt_equiv.2.2.1 fdC10 ("Great".data) (by decide)⟩

lemma update_form_ok {s : Store} {fid : Nat} {d : FeedbackFormUpdate}
    {f' : FeedbackForm} {s' : Store}
    (h : update_form s fid d = Except.ok (f', s')) :
    s'.responses = s.responses ∧ s'.analyses = s.analyses ∧ s'.clock = s.clock + 1 := by
  unfold update_form at h
  cases hg : get_form s fid with
  | error e => rw [hg] at h; simp at h
  | ok f =>
      rw [hg] at h
      simp only [Except.ok.injEq, Prod.mk.injEq] at h
      rw [← h.2]
      exact ⟨rfl, rfl, rfl⟩

lemma delete_form_ok {s : Store} {fid : Nat} {b : Bool} {s' : Store}
    (h : delete_form s fid = Except.ok (b, s')) :
    s'.responses = s.responses.filter (fun r => r.form_id != fid) ∧
    s'.analyses = s.analyses.filter (fun a => a.form_id != fid) ∧
    s'.clock = s.clock := by
  unfold delete_form at h
  cases hg : get_form s fid with
  | error e => rw [hg] at h; simp at h
  | ok f =>
      rw [hg] at h
      simp only [Except.ok.injEq, Prod.mk.injEq] at h
      rw [← h.2]
      exact ⟨rfl, rfl, rfl⟩

lemma create_response_ok {s : Store} {fid : Nat} {d : FeedbackResponseCreate}
    {r : FeedbackResponse} {s' : Store}
    (h : create_response s fid d = Except.ok (r, s')) :
    s'.responses = s.responses ++ [r] ∧ s'.analyses = s.analyses ∧
    r.submitted_at = s.clock ∧ s'.clock = s.clock + 1 := by
  unfold create_response at h
  cases hg : get_form s fid with
  | error e => rw [hg] at h; simp at h
  | ok f =>
      rw [hg] at h
      simp only [Except.ok.injEq, Prod.mk.injEq] at h
      rw [← h.1, ← h.2]
      exact ⟨rfl, rfl, rfl, rfl⟩

lemma analyze_form_ok {oracle : List Char → Except (List Char) (List Char)}
    {s : Store} {fid : Nat} {r : SentimentAnalysis} {s' : Store}
    (h : (analyze_form oracle s fid).1 = Except.ok (r, s')) :
    s'.responses = s.responses ∧ s.clock ≤ s'.clock ∧
    (s' = s ∨ (s.analyses.find? (fun a => a.form_id == fid) = none ∧
               s'.analyses = s.analyses ++ [r] ∧ r.form_id = fid)) := by
  unfold analyze_form at h
  cases hg : get_form s fid with
  | error e => rw [hg] at h; simp at h
  | ok f =>
      rw [hg] at h
      cases hf : s.analyses.find? (fun a => a.form_id == fid) with
      | some a =>
          rw [hf] at h
          simp only [Except.ok.injEq, Prod.mk.injEq] at h
          rw [← h.2]
          exact ⟨rfl, le_refl _, Or.inl rfl⟩
      | none =>
          rw [hf] at h
          by_cases he : (responsesOf s fid).isEmpty
          · rw [if_pos he] at h; simp at h
          · rw [if_neg he] at h
            rcases hres : analyze_feedback oracle (analysisInput s fid) with ⟨res, n⟩
            rw [hres] at h
            cases res with
            | error e => simp [storeAnalysis] at h
            | ok pr =>
                simp only [storeAnalysis, Except.ok.injEq, Prod.mk.injEq] at h
                rw [← h.2]
                exact ⟨rfl, Nat.le_succ _, Or.inr ⟨rfl, by rw [← h.1], by rw [← h.1]⟩⟩

lemma analysesUnique_apply (s : Store) (o : Op) (h : analysesUnique s) :
    analysesUnique (Op.apply s o) := by
  cases o with
  | createForm d => exact h
  | updateForm fid d =>
      simp only [Op.apply]
      cases hu : update_form s fid d with
      | error e => exact h
      | ok p =>
          obtain ⟨f', s'⟩ := p
          show analysesUnique s'
          unfold analysesUnique
          rw [(update_form_ok hu).2.1]
          exact h
  | deleteForm fid =>
      simp only [Op.apply]
      cases hd : delete_form s fid with
      | error e => exact h
      | ok p =>
          obtain ⟨b, s'⟩ := p
          show analysesUnique s'
          unfold analysesUnique
          rw [(delete_form_ok hd).2.1]
          exact List.Pairwise.sublist (List.filter_sublist _) h
  | createResponse fid d =>
      simp only [Op.apply]
      cases hc : create_response s fid d with
      | error e => exact h
      | ok p =>
          obtain ⟨r, s'⟩ := p
          show analysesUnique s'
          unfold analysesUnique
          rw [(create_response_ok hc).2.1]
          exact h
  | analyzeForm fid reply =>
      simp only [Op.apply]
      cases ha : (analyze_form (fun _ => reply) s fid).1 with
      | error e => exact h
      | ok p =>
          obtain ⟨r, s'⟩ := p
          show analysesUnique s'
          rcases (analyze_form_ok ha).2.2 with heq | ⟨hnone, happ, hform⟩
          · rw [heq]; exact h
          · unfold analysesUnique
            rw [happ]
            refine List.pairwise_append.mpr ⟨h, List.pairwise_singleton _ _, ?_⟩
            intro a ha' b hb
            rw [List.mem_singleton] at hb
            subst hb
            rw [hform]
            have := List.find?_eq_none.mp hnone a ha'
            simpa using this
  | getAnalysis fid => exact h

/-- C9: in every store reachable from the empty store through the exposed
operations, no two stored analyses belong to the same form, and every single
operation preserves this uniqueness invariant. -/
theorem analyses_unique_invariant :
    (∀ ops, analysesUnique (runOps ops)) ∧
    (∀ s o, analysesUnique s → analysesUnique (Op.apply s o)) := by
  refine ⟨?_, analysesUnique_apply⟩
  intro ops
  suffices h : ∀ s, analysesUnique s → analysesUnique (ops.foldl Op.apply s) by
    exact h Store.empty (by simp [analysesUnique, Store.empty])
  induction ops with
  | nil => intro s hs; exact hs
  | cons o os ih =>
      intro s hs
      exact ih _ (analysesUnique_apply s o hs)

/-- Witness for C9's preservation conjunct at a concrete store and step. -/
theorem analyses_unique_invariant_witness :
    analysesUnique hitStore ∧
    analysesUnique (Op.apply hitStore
      (Op.createForm { event_name := "E".data, event_date := none, description := none })) :=
  ⟨List.pairwise_singleton _ _, analyses_unique_invariant.2 hitStore
    (Op.createForm { event_name := "E".data, event_date := none, description := none })
    (List.pairwise_singleton _ _)⟩

set_option maxRecDepth 8192 in
/-- C5: the fetch of a form's responses imposes no ordering on the entity
store, so the same stored rows may legally come back oldest first or newest
first; the two return orders hand the Adapter different sequences, build
different prompts and make different external calls, and under the second
order the Adapter's input is not ordered by submission time oldest first —
the code does not provide the submission-order guarantee the specification
states. -/
theorem analyze_form_fetch_order_unspecified :
    permStore1.responses.Perm permStore2.responses ∧
    ¬ List.Pairwise (fun a b => a.submitted_at < b.submitted_at)
        (responsesOf permStore2 0) ∧
    analysisInput permStore1 0 ≠ analysisInput permStore2 0 ∧
    build_analysis_prompt (analysisInput permStore1 0) ≠
      build_analysis_prompt (analysisInput permStore2 0) ∧
    analyze_form echoOracle permStore1 0 ≠ analyze_form echoOracle permStore2 0 := by
  refine ⟨by decide, by decide, by decide, by decide, by decide⟩

end FeedbackAnalyser
